import Mathlib

/-!
Shallow embedding of the persistence layer of the go-health-tracker
repository: the mock backend (internal/database/mock/db.go), the embedded
SQLite backend (the SQLiteDB file, internal/database/database.go), and the
client-server PostgreSQL backend (internal/database/postgres.go), together
with the shared transaction/cancellation helper withTxContext.

Go values are modelled as follows: time.Time becomes a calendar date plus a
time-of-day remainder (GoTime); timestamps produced by time.Now() are
explicit clock readings (Nat) passed to each operation, one per call site of
time.Now(), in source order; Go errors become a tree (GoError) in which
fmt.Errorf with the %w verb is a wrapping node, so that errors.Is can be
modelled by unwrapping; the Go map of the mock backend becomes an
association list with Go-map semantics (insert replaces the entry of an
existing key, len is the number of entries).
-/

namespace HealthTracker

/-- Model of Go time.Time: calendar fields plus a time-of-day remainder
(all sub-day components collapsed into one natural number, zero meaning
midnight). The location is not modelled: all claims compare times produced
in one location. -/
structure GoTime where
  year : Int
  month : Int
  day : Int
  tod : Nat
  deriving DecidableEq, Repr

/-- Model of the mock backend's normalizeDate: time.Date(Y, M, D, 0,0,0,0, loc)
keeps the calendar day and strips the time-of-day. -/
def normalizeDate (t : GoTime) : GoTime :=
  { t with tod := 0 }

/-- Model of time.Time.IsZero: the zero Go time is January 1 of year 1,
midnight. -/
def GoTime.isZero (t : GoTime) : Prop :=
  t.year = 1 ∧ t.month = 1 ∧ t.day = 1 ∧ t.tod = 0

instance (t : GoTime) : Decidable t.isZero := by
  unfold GoTime.isZero; exact inferInstance

/-- Chronological order on Go times (the order of time.Time.Before restricted
to a single location): lexicographic on year, month, day, time-of-day. -/
def GoTime.le (a b : GoTime) : Prop :=
  a.year < b.year ∨ (a.year = b.year ∧
    (a.month < b.month ∨ (a.month = b.month ∧
      (a.day < b.day ∨ (a.day = b.day ∧ a.tod ≤ b.tod)))))

/-- Strict chronological order on Go times (time.Time.Before). -/
def GoTime.lt (a b : GoTime) : Prop :=
  a.year < b.year ∨ (a.year = b.year ∧
    (a.month < b.month ∨ (a.month = b.month ∧
      (a.day < b.day ∨ (a.day = b.day ∧ a.tod < b.tod)))))

instance : DecidableRel GoTime.le := fun a b => by
  unfold GoTime.le; exact inferInstance

instance : DecidableRel GoTime.lt := fun a b => by
  unfold GoTime.lt; exact inferInstance

theorem GoTime.le_refl (a : GoTime) : GoTime.le a a := by
  unfold GoTime.le; omega

theorem GoTime.le_trans {a b c : GoTime} (h1 : GoTime.le a b) (h2 : GoTime.le b c) :
    GoTime.le a c := by
  unfold GoTime.le at *; omega

theorem GoTime.le_total (a b : GoTime) : GoTime.le a b ∨ GoTime.le b a := by
  unfold GoTime.le; omega

theorem GoTime.lt_iff_le_not_le {a b : GoTime} :
    GoTime.lt a b ↔ GoTime.le a b ∧ ¬ GoTime.le b a := by
  unfold GoTime.lt GoTime.le; omega

theorem GoTime.le_antisymm {a b : GoTime} (h1 : GoTime.le a b) (h2 : GoTime.le b a) :
    a = b := by
  cases a
  cases b
  unfold GoTime.le at h1 h2
  dsimp only at h1 h2
  simp only [GoTime.mk.injEq]
  omega

/-- A calendar-valid Go time: month in 1..12 and day at least 1 (the fields a
time.Time produced from a real calendar date always satisfies). -/
def GoTime.valid (t : GoTime) : Prop :=
  1 ≤ t.month ∧ t.month ≤ 12 ∧ 1 ≤ t.day

instance (t : GoTime) : Decidable t.valid := by
  unfold GoTime.valid; exact inferInstance

/-- Model of models.HealthRecord. ID is int64 (mathematical integer here:
no claim depends on 64-bit wrap-around), Date a Go time, StepCount an int,
CreatedAt/UpdatedAt clock readings. -/
structure HealthRecord where
  id : Int
  date : GoTime
  stepCount : Int
  createdAt : Nat
  updatedAt : Nat
  deriving DecidableEq, Repr

/-- Model of the Go error values the persistence layer produces.  A wrap
node is fmt.Errorf("...: %w", inner); sentinel errors of the repository and
of the standard library are leaves. -/
inductive GoError where
  /-- context.DeadlineExceeded -/
  | contextDeadlineExceeded
  /-- context.Canceled -/
  | contextCanceled
  /-- mock.ErrDataBaseConnection -/
  | dbConnectionFailed
  /-- mock.ErrDuplicateRecord -/
  | duplicateRecord
  /-- mock.ErrRecordNotFound -/
  | recordNotFound
  /-- errors.New("date is required") in the mock create path -/
  | dateRequired
  /-- sql.ErrNoRows (also standing for pgx.ErrNoRows on the pg backend) -/
  | sqlNoRows
  /-- a unique-constraint violation raised by the engine on INSERT -/
  | engineUniqueViolation
  /-- any other failure coming from the driver or engine -/
  | engineFailure (msg : String)
  /-- fmt.Errorf("record not found for date: %v", d) of the pg backend -/
  | notFoundForDate (d : GoTime)
  /-- fmt.Errorf("...: %w", inner) -/
  | wrap (msg : String) (inner : GoError)
  deriving DecidableEq, Repr

/-- Model of errors.Is over the %w chain: e is target, or some error wrapped
inside e is target. -/
def GoError.is : GoError → GoError → Bool
  | .wrap m inner, t => (GoError.wrap m inner == t) || inner.is t
  | e, t => e == t

/-- Association list with Go-map semantics for the mock backend's
map keyed by time.Time. -/
abbrev RecordMap := List (GoTime × HealthRecord)

/-- Go map read m[k]: the value stored at key k, if any. -/
def mapLookup (m : RecordMap) (k : GoTime) : Option HealthRecord :=
  (m.find? (fun p => decide (p.1 = k))).map (·.2)

/-- Go map write m[k] = v: replaces the entry of an existing key, otherwise
adds a new entry. -/
def mapInsert (m : RecordMap) (k : GoTime) (v : HealthRecord) : RecordMap :=
  match m with
  | [] => [(k, v)]
  | p :: rest => if p.1 = k then (k, v) :: rest else p :: mapInsert rest k v

/-- Go delete(m, k): removes the entry of key k, if present. -/
def mapErase (m : RecordMap) (k : GoTime) : RecordMap :=
  match m with
  | [] => []
  | p :: rest => if p.1 = k then mapErase rest k else p :: mapErase rest k

/-- Go len(m): the number of entries. -/
def mapSize (m : RecordMap) : Nat := m.length

/-! ## Mock backend (internal/database/mock/db.go)

The injectable override functions (createFunc and friends) are nil in the
modelled configuration, as they are in every scenario the claims speak
about, so the default code path of each operation is embedded. -/

/-- Model of mock.MockDB: the record map plus the three fault toggles. The
mutex only serializes access and has no sequential meaning. -/
structure MockDB where
  records : RecordMap
  simulateTimeout : Bool
  simulateContextCancel : Bool
  simulateDBError : Bool
  deriving DecidableEq, Repr

/-- Model of mock.NewMockDB(). -/
def MockDB.new : MockDB :=
  { records := [], simulateTimeout := false, simulateContextCancel := false,
    simulateDBError := false }

/-- Model of MockDB.checkContext: the simulated fault to return before
touching the store, if any toggle is set (timeout checked first, then
cancellation, then connection error). -/
def MockDB.checkContext (m : MockDB) : Option GoError :=
  if m.simulateTimeout then some .contextDeadlineExceeded
  else if m.simulateContextCancel then some .contextCanceled
  else if m.simulateDBError then some .dbConnectionFailed
  else none

/-- Model of MockDB.CreateHealthRecord. The two clock readings t1 and t2 are
the two time.Now() calls that populate CreatedAt and UpdatedAt, in source
order. Returns the state after the call and the Go (record, error) pair. -/
def MockDB.createHealthRecord (m : MockDB) (hr : HealthRecord) (t1 t2 : Nat) :
    MockDB × Except GoError HealthRecord :=
  match m.checkContext with
  | some e => (m, .error e)
  | none =>
    let normalizedDate := normalizeDate hr.date
    if normalizedDate.isZero then (m, .error .dateRequired)
    else if (mapLookup m.records hr.date).isSome then
      -- the source checks m.records[hr.Date] with the raw incoming date
      (m, .error .duplicateRecord)
    else
      let record : HealthRecord :=
        { id := (mapSize m.records : Int) + 1
          date := normalizedDate
          stepCount := hr.stepCount
          createdAt := t1
          updatedAt := t2 }
      ({ m with records := mapInsert m.records normalizedDate record }, .ok record)

/-- Model of MockDB.ReadHealthRecord: nil error together with nil record when
the normalized date is absent. -/
def MockDB.readHealthRecord (m : MockDB) (date : GoTime) :
    Except GoError (Option HealthRecord) :=
  match m.checkContext with
  | some e => .error e
  | none =>
    match mapLookup m.records (normalizeDate date) with
    | none => .ok none
    | some r => .ok (some r)

/-- Ascending-by-date ordering of records, the comparison sort.Slice is given
in the mock read-range operations (Date.Before). -/
def hrDateLe (a b : HealthRecord) : Prop := GoTime.le a.date b.date

instance : DecidableRel hrDateLe := fun a b => by
  unfold hrDateLe; exact inferInstance

instance : IsTotal HealthRecord hrDateLe :=
  ⟨fun a b => GoTime.le_total a.date b.date⟩

instance : IsTrans HealthRecord hrDateLe :=
  ⟨fun _ _ _ h1 h2 => GoTime.le_trans h1 h2⟩

/-- The sort.Slice call of the mock read-range operations.  Go iterates the
map in unspecified order and then sorts; because the comparison is total and
the keys (hence dates) of a well-formed store are distinct, the sorted result
is the same for every iteration order, so the model sorts the entries in
list order. -/
def sortByDate (l : List HealthRecord) : List HealthRecord :=
  List.insertionSort hrDateLe l

/-- Model of MockDB.ReadHealthRecordsByYear. -/
def MockDB.readHealthRecordsByYear (m : MockDB) (year : Int) :
    Except GoError (List HealthRecord) :=
  match m.checkContext with
  | some e => .error e
  | none =>
    if mapSize m.records = 0 then .ok []
    else
      let records := (m.records.map (·.2)).filter (fun r => decide (r.date.year = year))
      .ok (sortByDate records)

/-- Model of MockDB.ReadHealthRecordsByYearMonth. -/
def MockDB.readHealthRecordsByYearMonth (m : MockDB) (year month : Int) :
    Except GoError (List HealthRecord) :=
  match m.checkContext with
  | some e => .error e
  | none =>
    if mapSize m.records = 0 then .ok []
    else
      let records := (m.records.map (·.2)).filter
        (fun r => decide (r.date.year = year) && decide (r.date.month = month))
      .ok (sortByDate records)

/-- Model of MockDB.UpdateHealthRecord; t is the time.Now() reading that
refreshes UpdatedAt. The source mutates the stored record through its
pointer, modelled as replacing the value at the normalized key. -/
def MockDB.updateHealthRecord (m : MockDB) (hr : HealthRecord) (t : Nat) :
    MockDB × Option GoError :=
  match m.checkContext with
  | some e => (m, some e)
  | none =>
    let normalizedDate := normalizeDate hr.date
    match mapLookup m.records normalizedDate with
    | none => (m, some .recordNotFound)
    | some record =>
      let record2 := { record with stepCount := hr.stepCount, updatedAt := t }
      ({ m with records := mapInsert m.records normalizedDate record2 }, none)

/-- Model of MockDB.DeleteHealthRecord. -/
def MockDB.deleteHealthRecord (m : MockDB) (date : GoTime) :
    MockDB × Option GoError :=
  match m.checkContext with
  | some e => (m, some e)
  | none =>
    let normalizedDate := normalizeDate date
    if (mapLookup m.records normalizedDate).isSome then
      ({ m with records := mapErase m.records normalizedDate }, none)
    else
      (m, some .recordNotFound)

/-- Model of MockDB.GetStoredRecordDirectly, the side-channel read that
bypasses the fault toggles and the public contract. -/
def MockDB.getStoredRecordDirectly (m : MockDB) (date : GoTime) :
    Option HealthRecord :=
  mapLookup m.records (normalizeDate date)

/-! ## Shared transaction and cancellation helper

withTxContext of the SQLiteDB file and DB.withTxContext of
internal/database/database.go are the same code up to receiver type; one
model covers both.  The model starts after a successful BeginTx (on a begin
failure the helper returns at once and no transaction exists). -/

/-- Model of the caller's context at the single point the helper inspects
it: whether ctx.Done() is closed at the post-body select, and which of the
two conditions ctx.Err() then reports. -/
structure GoContext where
  done : Bool
  timedOut : Bool
  deriving DecidableEq, Repr

/-- Model of ctx.Err() for a done context. -/
def GoContext.err (ctx : GoContext) : GoError :=
  if ctx.timedOut then .contextDeadlineExceeded else .contextCanceled

/-- How the transaction body fn(tx) terminates: a normal return of a value,
a normal return of an error, or a run-time fault (a Go panic, carrying an
arbitrary value modelled by a number). -/
inductive BodyOutcome (α : Type) where
  | ok (a : α)
  | fail (e : GoError)
  | faulted (p : Nat)
  deriving DecidableEq, Repr

/-- What running the helper produces: a normal return of a value, a normal
return of an error, or the re-raised fault of the body. -/
inductive RunResult (α : Type) where
  | ok (a : α)
  | err (e : GoError)
  | faulted (p : Nat)
  deriving DecidableEq, Repr

/-- Observable outcome of one run of the helper over an open transaction. -/
structure TxRun (α : Type) where
  result : RunResult α
  /-- tx.Commit() was called. -/
  commitAttempted : Bool
  /-- tx.Rollback() was called. -/
  rollbackAttempted : Bool
  /-- tx.Commit() was called and succeeded. -/
  committed : Bool
  deriving DecidableEq, Repr

/-- Model of withTxContext after a successful BeginTx.  rollbackErr is the
outcome of tx.Rollback() on the body-error path (where the source inspects
it; on the context-done path and in the deferred recover the rollback error
is discarded) and commitErr the outcome of tx.Commit(). -/
def withTxContext (ctx : GoContext) (body : BodyOutcome α)
    (rollbackErr commitErr : Option GoError) : TxRun α :=
  match body with
  | .faulted p =>
    -- deferred recover: roll back, then re-raise the fault
    { result := .faulted p, commitAttempted := false,
      rollbackAttempted := true, committed := false }
  | .fail e =>
    match rollbackErr with
    | some _ =>
      { result := .err (.wrap "rollback failed" e)
        commitAttempted := false, rollbackAttempted := true, committed := false }
    | none =>
      { result := .err e, commitAttempted := false,
        rollbackAttempted := true, committed := false }
  | .ok a =>
    if ctx.done then
      -- select ctx.Done(): roll back (error discarded), return ctx.Err()
      { result := .err ctx.err, commitAttempted := false,
        rollbackAttempted := true, committed := false }
    else
      match commitErr with
      | some ce =>
        { result := .err (.wrap "commit transaction" ce)
          commitAttempted := true, rollbackAttempted := false, committed := false }
      | none =>
        { result := .ok a, commitAttempted := true,
          rollbackAttempted := false, committed := true }

/-! ## Embedded SQLite backend (the SQLiteDB file) -/

/-- Statements the backends send to their engine, recorded as a trace. -/
inductive DBEvent where
  | beginTx
  /-- the prepared INSERT of create -/
  | execInsert (date : GoTime) (stepCount : Int) (now : Nat)
  /-- SELECT 1 / SELECT EXISTS existence probe of update and delete -/
  | queryProbe (date : GoTime)
  /-- the UPDATE statement -/
  | execUpdate (stepCount : Int) (now : Nat) (date : GoTime)
  /-- the DELETE statement -/
  | execDelete (date : GoTime)
  | commitTx
  | rollbackTx
  deriving DecidableEq, Repr

/-- State of the SQLite engine: the health_records table (date column
carries a unique index) and the next AUTOINCREMENT id. -/
structure SQLiteState where
  table : List HealthRecord
  nextId : Int
  deriving DecidableEq, Repr

/-- Well-formed engine state: as the schema enforces, dates are pairwise
distinct; ids are below the AUTOINCREMENT counter, which starts at 1. -/
def SQLiteState.wf (s : SQLiteState) : Prop :=
  s.table.Pairwise (fun a b => a.date ≠ b.date) ∧
  1 ≤ s.nextId ∧
  ∀ r ∈ s.table, r.id < s.nextId

/-- Rollback-or-commit tail of the statement trace of one helper run. -/
def txTail (run : TxRun α) : List DBEvent :=
  if run.rollbackAttempted then [DBEvent.rollbackTx]
  else if run.commitAttempted then [DBEvent.commitTx] else []

/-- Final engine state of one helper run whose body computed a successor
state: the body's state if the commit succeeded, the initial state
otherwise (rollback, or a failed commit, which aborts the transaction). -/
def txFinalState (s0 : SQLiteState) (run : TxRun (SQLiteState × α)) : SQLiteState :=
  match run.result, run.committed with
  | .ok (s1, _), true => s1
  | _, _ => s0

/-- Value returned to the Go caller by one helper run. -/
def txValue (run : TxRun (SQLiteState × α)) : RunResult α :=
  match run.result with
  | .ok (_, a) => .ok a
  | .err e => .err e
  | .faulted p => .faulted p

/-- Body of SQLiteDB.CreateHealthRecord: execute the prepared INSERT (the
unique index on date raises a constraint violation when the date exists),
read LastInsertId, and build the returned record from the single now
reading. -/
def sqliteCreateBody (s : SQLiteState) (hr : HealthRecord) (now : Nat) :
    BodyOutcome (SQLiteState × HealthRecord) × List DBEvent :=
  let events := [DBEvent.execInsert hr.date hr.stepCount now]
  if s.table.any (fun r => decide (r.date = hr.date)) then
    (.fail (.wrap "insert record" .engineUniqueViolation), events)
  else
    let row : HealthRecord :=
      { id := s.nextId, date := hr.date, stepCount := hr.stepCount,
        createdAt := now, updatedAt := now }
    (.ok ({ table := s.table ++ [row], nextId := s.nextId + 1 }, row), events)

/-- Model of SQLiteDB.CreateHealthRecord: the body above run through
withTxContext.  Returns the final engine state, the Go (record, error)
result, and the statement trace. -/
def sqliteCreateHealthRecord (s : SQLiteState) (hr : HealthRecord) (now : Nat)
    (ctx : GoContext) (rollbackErr commitErr : Option GoError) :
    SQLiteState × RunResult HealthRecord × List DBEvent :=
  let (body, events) := sqliteCreateBody s hr now
  let run := withTxContext ctx body rollbackErr commitErr
  (txFinalState s run, txValue run, DBEvent.beginTx :: events ++ txTail run)

/-- Body of SQLiteDB.UpdateHealthRecord: probe existence with
SELECT 1 ... WHERE date = ? inside the transaction, then execute the
prepared UPDATE.  When the probe returns no row, Scan fails with
sql.ErrNoRows, which the source wraps as "check existence: %w" (the
subsequent `if !exists` branch is unreachable: a scanned row stores 1,
which converts to true). -/
def sqliteUpdateBody (s : SQLiteState) (hr : HealthRecord) (now : Nat) :
    BodyOutcome (SQLiteState × Unit) × List DBEvent :=
  match s.table.find? (fun r => decide (r.date = hr.date)) with
  | none => (.fail (.wrap "check existence" .sqlNoRows), [DBEvent.queryProbe hr.date])
  | some _ =>
    let table2 := s.table.map (fun r =>
      if r.date = hr.date then { r with stepCount := hr.stepCount, updatedAt := now } else r)
    (.ok ({ s with table := table2 }, ()),
      [DBEvent.queryProbe hr.date, DBEvent.execUpdate hr.stepCount now hr.date])

/-- Model of SQLiteDB.UpdateHealthRecord. -/
def sqliteUpdateHealthRecord (s : SQLiteState) (hr : HealthRecord) (now : Nat)
    (ctx : GoContext) (rollbackErr commitErr : Option GoError) :
    SQLiteState × RunResult Unit × List DBEvent :=
  let (body, events) := sqliteUpdateBody s hr now
  let run := withTxContext ctx body rollbackErr commitErr
  (txFinalState s run, txValue run, DBEvent.beginTx :: events ++ txTail run)

/-- Body of SQLiteDB.DeleteHealthRecord: the same existence probe, then the
prepared DELETE. -/
def sqliteDeleteBody (s : SQLiteState) (date : GoTime) :
    BodyOutcome (SQLiteState × Unit) × List DBEvent :=
  match s.table.find? (fun r => decide (r.date = date)) with
  | none => (.fail (.wrap "check existence" .sqlNoRows), [DBEvent.queryProbe date])
  | some _ =>
    let table2 := s.table.filter (fun r => decide (r.date ≠ date))
    (.ok ({ s with table := table2 }, ()),
      [DBEvent.queryProbe date, DBEvent.execDelete date])

/-- Model of SQLiteDB.DeleteHealthRecord. -/
def sqliteDeleteHealthRecord (s : SQLiteState) (date : GoTime)
    (ctx : GoContext) (rollbackErr commitErr : Option GoError) :
    SQLiteState × RunResult Unit × List DBEvent :=
  let (body, events) := sqliteDeleteBody s date
  let run := withTxContext ctx body rollbackErr commitErr
  (txFinalState s run, txValue run, DBEvent.beginTx :: events ++ txTail run)

/-- Model of SQLiteDB.ReadHealthRecord: the prepared SELECT by date, outside
any transaction.  fault models a genuine driver or engine failure of the
QueryRow/Scan round trip; absent that, scanning an empty result yields
sql.ErrNoRows, which the source maps to (nil, nil). -/
def sqliteReadHealthRecord (s : SQLiteState) (date : GoTime)
    (fault : Option GoError) : Except GoError (Option HealthRecord) :=
  match fault with
  | some e => .error (.wrap "scan record" e)
  | none =>
    match s.table.find? (fun r => decide (r.date = date)) with
    | none => .ok none
    | some r => .ok (some r)

/-- Predicate "date lies in the half-open range [a, b)", the WHERE clause
date >= ? AND date < ? of the range SELECT. -/
def inRange (a b t : GoTime) : Prop := GoTime.le a t ∧ GoTime.lt t b

instance (a b t : GoTime) : Decidable (inRange a b t) := by
  unfold inRange; exact inferInstance

/-- Model of SQLiteDB.readHealthRecordsByRange: the prepared range SELECT
WHERE date >= start AND date < end ORDER BY date.  fault models a failure of
the query round trip. -/
def sqliteReadHealthRecordsByRange (s : SQLiteState) (startDate endDate : GoTime)
    (fault : Option GoError) : Except GoError (List HealthRecord) :=
  match fault with
  | some e => .error (.wrap "query records" e)
  | none =>
    .ok (sortByDate (s.table.filter (fun r => decide (inRange startDate endDate r.date))))

/-- Go time.Date(year, 1, 1, 0, 0, 0, 0, time.UTC), the range start of
ReadHealthRecordsByYear; its AddDate(1, 0, 0) is yearStart (year + 1). -/
def yearStart (year : Int) : GoTime :=
  { year := year, month := 1, day := 1, tod := 0 }

/-- Go time.Date(year, month, 1, 0, 0, 0, 0, time.UTC), the range start of
ReadHealthRecordsByYearMonth. -/
def monthStart (year month : Int) : GoTime :=
  { year := year, month := month, day := 1, tod := 0 }

/-- Go AddDate(0, 1, 0) applied to monthStart: time normalizes month 13 to
January of the next year. -/
def nextMonthStart (year month : Int) : GoTime :=
  if month = 12 then monthStart (year + 1) 1 else monthStart year (month + 1)

/-- Model of SQLiteDB.ReadHealthRecordsByYear. -/
def sqliteReadHealthRecordsByYear (s : SQLiteState) (year : Int)
    (fault : Option GoError) : Except GoError (List HealthRecord) :=
  sqliteReadHealthRecordsByRange s (yearStart year) (yearStart (year + 1)) fault

/-- Model of SQLiteDB.ReadHealthRecordsByYearMonth. -/
def sqliteReadHealthRecordsByYearMonth (s : SQLiteState) (year month : Int)
    (fault : Option GoError) : Except GoError (List HealthRecord) :=
  sqliteReadHealthRecordsByRange s (monthStart year month) (nextMonthStart year month) fault

/-! ## Client-server PostgreSQL backend (internal/database/postgres.go) -/

/-- State of the PostgreSQL engine: the health_records table (unique index
on date) and the next SERIAL id. -/
structure PGState where
  table : List HealthRecord
  nextId : Int
  deriving DecidableEq, Repr

/-- Model of PostgresDB.CreateHealthRecord: a single INSERT ... RETURNING
statement, no transaction; a duplicate date surfaces as the engine's
unique-constraint violation, wrapped by the source. now is the single
time.Now() reading passed for both timestamp columns. -/
def pgCreateHealthRecord (s : PGState) (hr : HealthRecord) (now : Nat) :
    PGState × Except GoError HealthRecord × List DBEvent :=
  let events := [DBEvent.execInsert hr.date hr.stepCount now]
  if s.table.any (fun r => decide (r.date = hr.date)) then
    (s, .error (.wrap "failed to create health record" .engineUniqueViolation), events)
  else
    let row : HealthRecord :=
      { id := s.nextId, date := hr.date, stepCount := hr.stepCount,
        createdAt := now, updatedAt := now }
    ({ table := s.table ++ [row], nextId := s.nextId + 1 }, .ok row, events)

/-- Model of PostgresDB.ReadHealthRecord: absent dates scan as pgx.ErrNoRows,
which the source maps to (nil, nil); fault models a genuine driver or engine
failure of the round trip. -/
def pgReadHealthRecord (s : PGState) (date : GoTime)
    (fault : Option GoError) : Except GoError (Option HealthRecord) :=
  match fault with
  | some e => .error (.wrap "failed to read health record" e)
  | none =>
    match s.table.find? (fun r => decide (r.date = date)) with
    | none => .ok none
    | some r => .ok (some r)

/-- Model of PostgresDB.UpdateHealthRecord of the current source: begin a
transaction, probe existence with SELECT EXISTS inside it, then UPDATE and
commit.  The affected-row count of the UPDATE is never inspected.  On the
not-found return the local err variable is nil, so the deferred
conditional rollback does not run and the trace ends after the probe. -/
def pgUpdateHealthRecord (s : PGState) (hr : HealthRecord) (now : Nat) :
    PGState × Option GoError × List DBEvent :=
  if s.table.any (fun r => decide (r.date = hr.date)) then
    let table2 := s.table.map (fun r =>
      if r.date = hr.date then { r with stepCount := hr.stepCount, updatedAt := now } else r)
    ({ s with table := table2 }, none,
      [DBEvent.beginTx, DBEvent.queryProbe hr.date,
       DBEvent.execUpdate hr.stepCount now hr.date, DBEvent.commitTx])
  else
    (s, some (.notFoundForDate hr.date),
      [DBEvent.beginTx, DBEvent.queryProbe hr.date])

/-- Model of PostgresDB.DeleteHealthRecord of the current source: the same
begin / SELECT EXISTS probe / DELETE / commit shape as update. -/
def pgDeleteHealthRecord (s : PGState) (date : GoTime) :
    PGState × Option GoError × List DBEvent :=
  if s.table.any (fun r => decide (r.date = date)) then
    let table2 := s.table.filter (fun r => decide (r.date ≠ date))
    ({ s with table := table2 }, none,
      [DBEvent.beginTx, DBEvent.queryProbe date,
       DBEvent.execDelete date, DBEvent.commitTx])
  else
    (s, some (.notFoundForDate date),
      [DBEvent.beginTx, DBEvent.queryProbe date])

/-! ## Helper lemmas about the map and list operations -/

theorem mapLookup_mapInsert_self (m : RecordMap) (k : GoTime) (v : HealthRecord) :
    mapLookup (mapInsert m k v) k = some v := by
  induction m with
  | nil => simp [mapInsert, mapLookup, List.find?]
  | cons p rest ih =>
    by_cases h : p.1 = k
    · simp [mapInsert, h, mapLookup, List.find?]
    · simp only [mapInsert, if_neg h]
      simpa [mapLookup, List.find?, h] using ih

theorem mapLookup_mapInsert_ne (m : RecordMap) (k k' : GoTime) (v : HealthRecord)
    (h : k' ≠ k) : mapLookup (mapInsert m k v) k' = mapLookup m k' := by
  induction m with
  | nil => simp [mapInsert, mapLookup, List.find?, Ne.symm h]
  | cons p rest ih =>
    by_cases hp : p.1 = k
    · subst hp
      simp [mapInsert, mapLookup, List.find?, Ne.symm h]
    · simp only [mapInsert, if_neg hp]
      by_cases hk : p.1 = k'
      · simp [mapLookup, List.find?, hk]
      · simp only [mapLookup, List.find?] at ih ⊢
        simp [hk, ih]

theorem mapInsert_of_lookup_none (m : RecordMap) (k : GoTime) (v : HealthRecord)
    (h : mapLookup m k = none) : mapInsert m k v = m ++ [(k, v)] := by
  induction m with
  | nil => simp [mapInsert]
  | cons p rest ih =>
    simp only [mapLookup, List.find?] at h
    by_cases hp : p.1 = k
    · simp [hp] at h
    · simp only [mapInsert, if_neg hp, List.cons_append, List.cons.injEq, true_and]
      exact ih (by simpa [mapLookup, hp] using h)

theorem mapLookup_mapErase_self (m : RecordMap) (k : GoTime) :
    mapLookup (mapErase m k) k = none := by
  induction m with
  | nil => simp [mapErase, mapLookup]
  | cons p rest ih =>
    by_cases hp : p.1 = k
    · simpa [mapErase, hp] using ih
    · simp only [mapErase, if_neg hp]
      simp only [mapLookup, List.find?] at ih ⊢
      simpa [hp] using ih

theorem mapLookup_mapErase_ne (m : RecordMap) (k k' : GoTime) (h : k' ≠ k) :
    mapLookup (mapErase m k) k' = mapLookup m k' := by
  induction m with
  | nil => simp [mapErase, mapLookup]
  | cons p rest ih =>
    by_cases hp : p.1 = k
    · subst hp
      rw [show mapErase (p :: rest) p.1 = mapErase rest p.1 from by simp [mapErase]]
      rw [ih]
      simp [mapLookup, List.find?, Ne.symm h]
    · simp only [mapErase, if_neg hp]
      by_cases hk : p.1 = k'
      · simp [mapLookup, List.find?, hk]
      · simp only [mapLookup, List.find?] at ih ⊢
        simp [hk, ih]

theorem find?_append_of_none {α : Type} (p : α → Bool) (l1 l2 : List α)
    (h : l1.find? p = none) : (l1 ++ l2).find? p = l2.find? p := by
  induction l1 with
  | nil => simp
  | cons a rest ih =>
    rw [List.find?] at h
    cases hp : p a with
    | true => simp [hp] at h
    | false =>
      simp only [List.cons_append, List.find?, hp]
      exact ih (by simpa [hp] using h)

/-! ## Claims about the shared transaction helper (C1, C8) -/

/-- C1: for every mutating operation run through the shared transaction
helper withTxContext (embedded backend), if the body completes without error
but the caller's context is done by the time commit is attempted, the helper
rolls the transaction back and returns ctx.Err() — the context's
cancellation or timeout error — and commit is never called; conversely,
commit is called only when the body succeeded and the context is still
live. -/
theorem withTxContext_cancel_blocks_commit {α : Type} (ctx : GoContext)
    (body : BodyOutcome α) (rollbackErr commitErr : Option GoError) :
    (∀ a : α, body = .ok a → ctx.done = true →
      (withTxContext ctx body rollbackErr commitErr).result = .err ctx.err ∧
      (withTxContext ctx body rollbackErr commitErr).rollbackAttempted = true ∧
      (withTxContext ctx body rollbackErr commitErr).commitAttempted = false) ∧
    ((withTxContext ctx body rollbackErr commitErr).commitAttempted = true →
      ctx.done = false ∧ ∃ a : α, body = .ok a) := by
  constructor
  · intro a hbody hdone
    subst hbody
    simp [withTxContext, hdone]
  · intro hc
    cases body with
    | ok a =>
      cases hdone : ctx.done with
      | true => simp [withTxContext, hdone] at hc
      | false => exact ⟨rfl, a, rfl⟩
    | fail e =>
      cases rollbackErr <;> simp [withTxContext] at hc
    | faulted p =>
      simp [withTxContext] at hc

/-- C1 witness: a live body result under a context that has timed out is
rolled back and reported as context.DeadlineExceeded, with no commit. -/
theorem withTxContext_cancel_blocks_commit_witness :
    (withTxContext (GoContext.mk true true) (BodyOutcome.ok (0 : Nat)) none none).result
        = .err (GoContext.mk true true).err ∧
    (withTxContext (GoContext.mk true true) (BodyOutcome.ok (0 : Nat)) none none).rollbackAttempted
        = true ∧
    (withTxContext (GoContext.mk true true) (BodyOutcome.ok (0 : Nat)) none none).commitAttempted
        = false :=
  (withTxContext_cancel_blocks_commit (GoContext.mk true true)
    (BodyOutcome.ok (0 : Nat)) none none).1 0 rfl rfl

/-- C8: if the body of a helper run terminates abnormally (a Go panic,
caught by the deferred recover), the transaction is rolled back before the
fault is re-propagated; and on every exit path of the helper — normal
success, error return, or re-raised fault — either commit or rollback has
been called on the transaction. -/
theorem withTxContext_cleanup_every_path {α : Type} (ctx : GoContext)
    (body : BodyOutcome α) (rollbackErr commitErr : Option GoError) :
    (∀ p : Nat, body = .faulted p →
      (withTxContext ctx body rollbackErr commitErr).result = .faulted p ∧
      (withTxContext ctx body rollbackErr commitErr).rollbackAttempted = true ∧
      (withTxContext ctx body rollbackErr commitErr).commitAttempted = false) ∧
    ((withTxContext ctx body rollbackErr commitErr).commitAttempted = true ∨
      (withTxContext ctx body rollbackErr commitErr).rollbackAttempted = true) := by
  constructor
  · intro p hbody
    subst hbody
    simp [withTxContext]
  · cases body with
    | ok a =>
      cases hdone : ctx.done with
      | true => simp [withTxContext, hdone]
      | false => cases commitErr <;> simp [withTxContext, hdone]
    | fail e => cases rollbackErr <;> simp [withTxContext]
    | faulted p => simp [withTxContext]

/-- C8 witness: a body fault with value 7 is re-raised after rollback, with
no commit. -/
theorem withTxContext_cleanup_every_path_witness :
    (withTxContext (GoContext.mk false false) (BodyOutcome.faulted (α := Nat) 7) none none).result
        = .faulted 7 ∧
    (withTxContext (GoContext.mk false false) (BodyOutcome.faulted (α := Nat) 7) none none).rollbackAttempted
        = true ∧
    (withTxContext (GoContext.mk false false) (BodyOutcome.faulted (α := Nat) 7) none none).commitAttempted
        = false :=
  (withTxContext_cleanup_every_path (GoContext.mk false false)
    (BodyOutcome.faulted (α := Nat) 7) none none).1 7 rfl

/-! ## Claim about update/delete on the embedded backend (C5) -/

/-- C5: on the embedded backend, update and delete probe existence of the
target date inside the same transaction as the mutation (the statement
trace between one begin and its commit holds first the probe and then the
mutation); when no record exists for the date, the operation fails with a
not-found condition — an error that errors.Is identifies as sql.ErrNoRows —
the transaction is rolled back, and the stored state is unchanged (in
particular no record is created). -/
theorem sqlite_update_delete_notfound (s : SQLiteState) (hr : HealthRecord)
    (now : Nat) (ctx : GoContext) (rollbackErr commitErr : Option GoError) (d : GoTime) :
    ((∀ r ∈ s.table, r.date ≠ hr.date) →
      ∃ e, sqliteUpdateHealthRecord s hr now ctx rollbackErr commitErr
          = (s, .err e, [DBEvent.beginTx, DBEvent.queryProbe hr.date, DBEvent.rollbackTx]) ∧
        e.is .sqlNoRows = true) ∧
    ((∀ r ∈ s.table, r.date ≠ d) →
      ∃ e, sqliteDeleteHealthRecord s d ctx rollbackErr commitErr
          = (s, .err e, [DBEvent.beginTx, DBEvent.queryProbe d, DBEvent.rollbackTx]) ∧
        e.is .sqlNoRows = true) ∧
    ((∃ r ∈ s.table, r.date = hr.date) → ctx.done = false → commitErr = none →
      (sqliteUpdateHealthRecord s hr now ctx rollbackErr commitErr).2.2
        = [DBEvent.beginTx, DBEvent.queryProbe hr.date,
           DBEvent.execUpdate hr.stepCount now hr.date, DBEvent.commitTx]) ∧
    ((∃ r ∈ s.table, r.date = d) → ctx.done = false → commitErr = none →
      (sqliteDeleteHealthRecord s d ctx rollbackErr commitErr).2.2
        = [DBEvent.beginTx, DBEvent.queryProbe d, DBEvent.execDelete d, DBEvent.commitTx]) := by
  refine ⟨?_, ?_, ?_, ?_⟩
  · intro h
    have hfind : s.table.find? (fun r => decide (r.date = hr.date)) = none :=
      List.find?_eq_none.mpr (fun x hx => by simpa using h x hx)
    cases rollbackErr <;>
      simp [sqliteUpdateHealthRecord, sqliteUpdateBody, hfind, withTxContext,
        txFinalState, txValue, txTail, GoError.is]
  · intro h
    have hfind : s.table.find? (fun r => decide (r.date = d)) = none :=
      List.find?_eq_none.mpr (fun x hx => by simpa using h x hx)
    cases rollbackErr <;>
      simp [sqliteDeleteHealthRecord, sqliteDeleteBody, hfind, withTxContext,
        txFinalState, txValue, txTail, GoError.is]
  · intro h hdone hce
    subst hce
    cases hf : s.table.find? (fun r => decide (r.date = hr.date)) with
    | none =>
      obtain ⟨r, hm, hd⟩ := h
      exact absurd (by simpa using List.find?_eq_none.mp hf r hm) (by simp [hd])
    | some r0 =>
      simp [sqliteUpdateHealthRecord, sqliteUpdateBody, hf, withTxContext, hdone,
        txTail]
  · intro h hdone hce
    subst hce
    cases hf : s.table.find? (fun r => decide (r.date = d)) with
    | none =>
      obtain ⟨r, hm, hd⟩ := h
      exact absurd (by simpa using List.find?_eq_none.mp hf r hm) (by simp [hd])
    | some r0 =>
      simp [sqliteDeleteHealthRecord, sqliteDeleteBody, hf, withTxContext, hdone,
        txTail]

/-- C5 witness: against a one-record table at 2024-01-05, updating and
deleting 2024-01-06 fail as not-found and leave the table unchanged, while
updating 2024-01-05 issues probe and mutation inside one transaction. -/
theorem sqlite_update_delete_notfound_witness :
    (∃ e, sqliteUpdateHealthRecord
        (SQLiteState.mk [HealthRecord.mk 1 (GoTime.mk 2024 1 5 0) 100 0 0] 2)
        (HealthRecord.mk 0 (GoTime.mk 2024 1 6 0) 200 0 0) 3
        (GoContext.mk false false) none none
        = (SQLiteState.mk [HealthRecord.mk 1 (GoTime.mk 2024 1 5 0) 100 0 0] 2, .err e,
           [DBEvent.beginTx, DBEvent.queryProbe (GoTime.mk 2024 1 6 0), DBEvent.rollbackTx]) ∧
      e.is .sqlNoRows = true) ∧
    (∃ e, sqliteDeleteHealthRecord
        (SQLiteState.mk [HealthRecord.mk 1 (GoTime.mk 2024 1 5 0) 100 0 0] 2)
        (GoTime.mk 2024 1 6 0) (GoContext.mk false false) none none
        = (SQLiteState.mk [HealthRecord.mk 1 (GoTime.mk 2024 1 5 0) 100 0 0] 2, .err e,
           [DBEvent.beginTx, DBEvent.queryProbe (GoTime.mk 2024 1 6 0), DBEvent.rollbackTx]) ∧
      e.is .sqlNoRows = true) := by
  have h := sqlite_update_delete_notfound
    (SQLiteState.mk [HealthRecord.mk 1 (GoTime.mk 2024 1 5 0) 100 0 0] 2)
    (HealthRecord.mk 0 (GoTime.mk 2024 1 6 0) 200 0 0) 3
    (GoContext.mk false false) none none (GoTime.mk 2024 1 6 0)
  exact ⟨h.1 (by decide), h.2.1 (by decide)⟩

/-! ## Claim about reading an absent date (C6) -/

/-- C6: on all three backends — embedded, client-server, and the test
double — reading a date with no stored record returns an explicit absent
result (nil record) together with no error, and a read returns an error
only when a genuine backend failure occurred (a driver fault on the real
backends, a simulated fault toggle on the test double). -/
theorem read_absent_is_ok_none (m : MockDB) (s : SQLiteState) (p : PGState)
    (d : GoTime) :
    (m.checkContext = none → mapLookup m.records (normalizeDate d) = none →
      m.readHealthRecord d = .ok none) ∧
    ((∀ r ∈ s.table, r.date ≠ d) → sqliteReadHealthRecord s d none = .ok none) ∧
    ((∀ r ∈ p.table, r.date ≠ d) → pgReadHealthRecord p d none = .ok none) ∧
    (∀ fault e, sqliteReadHealthRecord s d fault = .error e → fault ≠ none) ∧
    (∀ fault e, pgReadHealthRecord p d fault = .error e → fault ≠ none) ∧
    (∀ e, m.readHealthRecord d = .error e → m.checkContext ≠ none) := by
  refine ⟨?_, ?_, ?_, ?_, ?_, ?_⟩
  · intro hctx habs
    simp [MockDB.readHealthRecord, hctx, habs]
  · intro h
    have hfind : s.table.find? (fun r => decide (r.date = d)) = none :=
      List.find?_eq_none.mpr (fun x hx => by simpa using h x hx)
    simp [sqliteReadHealthRecord, hfind]
  · intro h
    have hfind : p.table.find? (fun r => decide (r.date = d)) = none :=
      List.find?_eq_none.mpr (fun x hx => by simpa using h x hx)
    simp [pgReadHealthRecord, hfind]
  · intro fault e he
    cases fault with
    | some f => simp
    | none =>
      cases hf : s.table.find? (fun r => decide (r.date = d)) <;>
        simp [sqliteReadHealthRecord, hf] at he
  · intro fault e he
    cases fault with
    | some f => simp
    | none =>
      cases hf : p.table.find? (fun r => decide (r.date = d)) <;>
        simp [pgReadHealthRecord, hf] at he
  · intro e he hctx
    cases hl : mapLookup m.records (normalizeDate d) <;>
      simp [MockDB.readHealthRecord, hctx, hl] at he

/-- C6 witness: reading 2024-02-01 from a fresh mock store, an empty SQLite
table, and an empty PostgreSQL table yields nil record with nil error. -/
theorem read_absent_is_ok_none_witness :
    MockDB.new.readHealthRecord (GoTime.mk 2024 2 1 0) = .ok none ∧
    sqliteReadHealthRecord (SQLiteState.mk [] 1) (GoTime.mk 2024 2 1 0) none = .ok none ∧
    pgReadHealthRecord (PGState.mk [] 1) (GoTime.mk 2024 2 1 0) none = .ok none := by
  have h := read_absent_is_ok_none MockDB.new (SQLiteState.mk [] 1) (PGState.mk [] 1)
    (GoTime.mk 2024 2 1 0)
  exact ⟨h.1 rfl rfl, h.2.1 (by decide), h.2.2.1 (by decide)⟩

/-! ## Claim about create followed by read (C3) -/

/-- C3 (counterexample): on the test double the claim fails as stated.
CreatedAt and UpdatedAt are populated by two separate time.Now() calls;
with consecutive clock readings 0 and 1, creating a record at 2024-01-01
in a fresh store and reading it back yields createdAt 0 and updatedAt 1,
so createdAt does not equal updatedAt. -/
theorem mock_create_read_created_ne_updated :
    ∃ rec : HealthRecord,
      ((MockDB.new.createHealthRecord
          (HealthRecord.mk 0 (GoTime.mk 2024 1 1 0) 100 0 0) 0 1).1.readHealthRecord
          (GoTime.mk 2024 1 1 0)).toOption = some (some rec) ∧
      rec.createdAt ≠ rec.updatedAt := by
  refine ⟨HealthRecord.mk 1 (GoTime.mk 2024 1 1 0) 100 0 1, by decide, by decide⟩

/-- C3 (amended): for every valid record and every state with no record at
its date, create followed by read on the same backend returns a record with
the requested stepCount and a non-zero id; on the embedded backend
createdAt equals updatedAt (one time.Now() reading feeds both columns),
while on the test double createdAt and updatedAt are the two consecutive
time.Now() readings taken at creation, so they are equal exactly when those
two readings coincide. -/
theorem create_then_read_returns_created (s : SQLiteState) (hr : HealthRecord)
    (now : Nat) (m : MockDB) (hr2 : HealthRecord) (t1 t2 : Nat) :
    (s.wf → (∀ r ∈ s.table, r.date ≠ hr.date) →
      ∃ rec,
        (sqliteCreateHealthRecord s hr now (GoContext.mk false false) none none).2.1
          = .ok rec ∧
        sqliteReadHealthRecord
          (sqliteCreateHealthRecord s hr now (GoContext.mk false false) none none).1
          hr.date none = .ok (some rec) ∧
        rec.stepCount = hr.stepCount ∧ rec.id ≠ 0 ∧ rec.createdAt = rec.updatedAt) ∧
    (m.checkContext = none → ¬ (normalizeDate hr2.date).isZero →
      mapLookup m.records hr2.date = none →
      ∃ rec,
        (m.createHealthRecord hr2 t1 t2).2 = .ok rec ∧
        (m.createHealthRecord hr2 t1 t2).1.readHealthRecord hr2.date = .ok (some rec) ∧
        rec.stepCount = hr2.stepCount ∧ rec.id ≠ 0 ∧
        rec.createdAt = t1 ∧ rec.updatedAt = t2) := by
  constructor
  · intro hwf habs
    have hfind : s.table.find? (fun r => decide (r.date = hr.date)) = none :=
      List.find?_eq_none.mpr (fun x hx => by simpa using habs x hx)
    have hany : s.table.any (fun r => decide (r.date = hr.date)) = false := by
      rw [List.any_eq_false]
      intro x hx
      simpa using habs x hx
    refine ⟨HealthRecord.mk s.nextId hr.date hr.stepCount now now, ?_, ?_, rfl, ?_, rfl⟩
    · simp [sqliteCreateHealthRecord, sqliteCreateBody, hany, withTxContext, txValue]
    · simp only [sqliteCreateHealthRecord, sqliteCreateBody, hany, Bool.false_eq_true,
        if_false, withTxContext, txFinalState, sqliteReadHealthRecord]
      rw [find?_append_of_none _ _ _ hfind]
      simp [List.find?]
    · have h1 := hwf.2.1
      show s.nextId ≠ 0
      omega
  · intro hctx hnz hraw
    refine ⟨HealthRecord.mk ((mapSize m.records : Int) + 1) (normalizeDate hr2.date)
      hr2.stepCount t1 t2, ?_, ?_, rfl, ?_, rfl, rfl⟩
    · simp [MockDB.createHealthRecord, hctx, hnz, hraw]
    · have hctx2 : ((m.createHealthRecord hr2 t1 t2).1).checkContext = none := by
        simp [MockDB.createHealthRecord, hctx, hnz, hraw]
        exact hctx
      simp only [MockDB.createHealthRecord, hctx, hnz, if_neg, hraw, Option.isSome_none,
        Bool.false_eq_true, if_false, MockDB.readHealthRecord]
      simp [MockDB.checkContext] at hctx ⊢
      simp [hctx, mapLookup_mapInsert_self]
    · have := Int.natCast_nonneg (mapSize m.records)
      show (mapSize m.records : Int) + 1 ≠ 0
      omega

/-- C3 witness: in an empty SQLite table (next id 1) and a fresh mock store,
creating a record at 2024-03-03 with stepCount 500 and reading it back
returns stepCount 500, non-zero id, equal timestamps on the embedded
backend, and the two creation-time clock readings on the test double. -/
theorem create_then_read_returns_created_witness :
    (∃ rec,
      (sqliteCreateHealthRecord (SQLiteState.mk [] 1)
        (HealthRecord.mk 0 (GoTime.mk 2024 3 3 0) 500 0 0) 9
        (GoContext.mk false false) none none).2.1 = .ok rec ∧
      sqliteReadHealthRecord
        (sqliteCreateHealthRecord (SQLiteState.mk [] 1)
          (HealthRecord.mk 0 (GoTime.mk 2024 3 3 0) 500 0 0) 9
          (GoContext.mk false false) none none).1
        (GoTime.mk 2024 3 3 0) none = .ok (some rec) ∧
      rec.stepCount = 500 ∧ rec.id ≠ 0 ∧ rec.createdAt = rec.updatedAt) ∧
    (∃ rec,
      (MockDB.new.createHealthRecord
        (HealthRecord.mk 0 (GoTime.mk 2024 3 3 0) 500 0 0) 4 4).2 = .ok rec ∧
      (MockDB.new.createHealthRecord
        (HealthRecord.mk 0 (GoTime.mk 2024 3 3 0) 500 0 0) 4 4).1.readHealthRecord
        (GoTime.mk 2024 3 3 0) = .ok (some rec) ∧
      rec.stepCount = 500 ∧ rec.id ≠ 0 ∧ rec.createdAt = 4 ∧ rec.updatedAt = 4) := by
  have h := create_then_read_returns_created (SQLiteState.mk [] 1)
    (HealthRecord.mk 0 (GoTime.mk 2024 3 3 0) 500 0 0) 9
    MockDB.new (HealthRecord.mk 0 (GoTime.mk 2024 3 3 0) 500 0 0) 4 4
  exact ⟨h.1 ⟨List.Pairwise.nil, by norm_num, by simp⟩ (by decide),
    h.2 rfl (by decide) rfl⟩

/-! ## Claim about duplicate create (C4) -/

/-- C4 (failing input, test double): the store already holds a record at the
normalized date 2024-01-01 (id 1, stepCount 1000), and create is called
with the same calendar date carrying a non-zero time-of-day (the existence
check m.records[hr.Date] uses the raw incoming date, while the store is
keyed by the normalized date, so the check misses).  The call returns
success instead of the duplicate-key condition, and the pre-existing record
is replaced by the new one (id 2, stepCount 2222) instead of being left
unchanged. -/
theorem mock_create_duplicate_date_overwrites :
    ∃ rec : HealthRecord,
      ((MockDB.mk [(GoTime.mk 2024 1 1 0, HealthRecord.mk 1 (GoTime.mk 2024 1 1 0) 1000 5 5)]
          false false false).createHealthRecord
          (HealthRecord.mk 0 (GoTime.mk 2024 1 1 7) 2222 0 0) 8 9).2 = .ok rec ∧
      ((MockDB.mk [(GoTime.mk 2024 1 1 0, HealthRecord.mk 1 (GoTime.mk 2024 1 1 0) 1000 5 5)]
          false false false).createHealthRecord
          (HealthRecord.mk 0 (GoTime.mk 2024 1 1 7) 2222 0 0) 8 9).1.getStoredRecordDirectly
          (GoTime.mk 2024 1 1 0) = some rec ∧
      rec ≠ HealthRecord.mk 1 (GoTime.mk 2024 1 1 0) 1000 5 5 := by
  exact ⟨HealthRecord.mk 2 (GoTime.mk 2024 1 1 0) 2222 8 9, rfl, rfl, by decide⟩

/-! ## Claim about the range reads (C7) -/

theorem year_eq_iff_inYearRange (t : GoTime) (ht : t.valid) (y : Int) :
    t.year = y ↔ inRange (yearStart y) (yearStart (y + 1)) t := by
  unfold GoTime.valid at ht
  simp only [inRange, yearStart, GoTime.le, GoTime.lt]
  omega

theorem yearMonth_eq_iff_inMonthRange (t : GoTime) (ht : t.valid) (y m : Int)
    (hm1 : 1 ≤ m) (hm2 : m ≤ 12) :
    (t.year = y ∧ t.month = m) ↔ inRange (monthStart y m) (nextMonthStart y m) t := by
  unfold GoTime.valid at ht
  rcases eq_or_ne m 12 with h12 | h12
  · subst h12
    have hnext : nextMonthStart y 12 = monthStart (y + 1) 1 := by
      simp [nextMonthStart]
    rw [hnext]
    simp only [inRange, monthStart, GoTime.le, GoTime.lt]
    omega
  · simp only [inRange, monthStart, nextMonthStart, if_neg h12, GoTime.le, GoTime.lt]
    omega

/-- C7: on the test double and the embedded backend, readByYear y returns
exactly the stored records whose date lies in the half-open range from
January 1 of y to January 1 of y+1, and readByYearMonth y m exactly those
from the first day of month m to the first day of the following month, each
as a list that is a permutation of the matching records sorted ascending by
date, and an empty list together with no error when none match.  The stored
dates are assumed calendar-valid, as both schemas guarantee. -/
theorem read_by_period_range_sorted (m : MockDB) (y mo : Int) (s : SQLiteState)
    (hv : ∀ pr ∈ m.records, pr.2.date.valid) (hctx : m.checkContext = none)
    (hm1 : 1 ≤ mo) (hm2 : mo ≤ 12) :
    (∃ L, m.readHealthRecordsByYear y = .ok L ∧
      L.Perm ((m.records.map (·.2)).filter
        (fun r => decide (inRange (yearStart y) (yearStart (y + 1)) r.date))) ∧
      L.Sorted hrDateLe ∧
      ((m.records.map (·.2)).filter
        (fun r => decide (inRange (yearStart y) (yearStart (y + 1)) r.date)) = [] →
        L = [])) ∧
    (∃ L, m.readHealthRecordsByYearMonth y mo = .ok L ∧
      L.Perm ((m.records.map (·.2)).filter
        (fun r => decide (inRange (monthStart y mo) (nextMonthStart y mo) r.date))) ∧
      L.Sorted hrDateLe ∧
      ((m.records.map (·.2)).filter
        (fun r => decide (inRange (monthStart y mo) (nextMonthStart y mo) r.date)) = [] →
        L = [])) ∧
    (∃ L, sqliteReadHealthRecordsByYear s y none = .ok L ∧
      L.Perm (s.table.filter
        (fun r => decide (inRange (yearStart y) (yearStart (y + 1)) r.date))) ∧
      L.Sorted hrDateLe ∧
      (s.table.filter
        (fun r => decide (inRange (yearStart y) (yearStart (y + 1)) r.date)) = [] →
        L = [])) ∧
    (∃ L, sqliteReadHealthRecordsByYearMonth s y mo none = .ok L ∧
      L.Perm (s.table.filter
        (fun r => decide (inRange (monthStart y mo) (nextMonthStart y mo) r.date))) ∧
      L.Sorted hrDateLe ∧
      (s.table.filter
        (fun r => decide (inRange (monthStart y mo) (nextMonthStart y mo) r.date)) = [] →
        L = [])) := by
  have hvv : ∀ r ∈ m.records.map (·.2), r.date.valid := by
    intro r hr
    obtain ⟨pr, hpr, hpr2⟩ := List.mem_map.mp hr
    exact hpr2 ▸ hv pr hpr
  have hcongrY : (m.records.map (·.2)).filter (fun r => decide (r.date.year = y))
      = (m.records.map (·.2)).filter
        (fun r => decide (inRange (yearStart y) (yearStart (y + 1)) r.date)) := by
    apply List.filter_congr
    intro x hx
    simpa [decide_eq_decide] using year_eq_iff_inYearRange x.date (hvv x hx) y
  have hcongrM : (m.records.map (·.2)).filter
        (fun r => decide (r.date.year = y) && decide (r.date.month = mo))
      = (m.records.map (·.2)).filter
        (fun r => decide (inRange (monthStart y mo) (nextMonthStart y mo) r.date)) := by
    apply List.filter_congr
    intro x hx
    have := yearMonth_eq_iff_inMonthRange x.date (hvv x hx) y mo hm1 hm2
    rw [← Bool.decide_and, decide_eq_decide]
    exact this
  refine ⟨?_, ?_, ?_, ?_⟩
  · by_cases hsz : mapSize m.records = 0
    · have hnil : m.records = [] := List.length_eq_zero.mp hsz
      refine ⟨[], ?_, ?_, List.sorted_nil, fun _ => rfl⟩
      · simp [MockDB.readHealthRecordsByYear, hctx, hsz]
      · simp [hnil]
    · refine ⟨sortByDate ((m.records.map (·.2)).filter (fun r => decide (r.date.year = y))),
        ?_, ?_, ?_, ?_⟩
      · simp [MockDB.readHealthRecordsByYear, hctx, hsz]
      · rw [hcongrY]
        exact List.perm_insertionSort hrDateLe _
      · exact List.sorted_insertionSort hrDateLe _
      · intro hempty
        rw [sortByDate, hcongrY, hempty]
        rfl
  · by_cases hsz : mapSize m.records = 0
    · have hnil : m.records = [] := List.length_eq_zero.mp hsz
      refine ⟨[], ?_, ?_, List.sorted_nil, fun _ => rfl⟩
      · simp [MockDB.readHealthRecordsByYearMonth, hctx, hsz]
      · simp [hnil]
    · refine ⟨sortByDate ((m.records.map (·.2)).filter
        (fun r => decide (r.date.year = y) && decide (r.date.month = mo))), ?_, ?_, ?_, ?_⟩
      · simp [MockDB.readHealthRecordsByYearMonth, hctx, hsz]
      · rw [hcongrM]
        exact List.perm_insertionSort hrDateLe _
      · exact List.sorted_insertionSort hrDateLe _
      · intro hempty
        rw [sortByDate, hcongrM, hempty]
        rfl
  · refine ⟨sortByDate (s.table.filter
      (fun r => decide (inRange (yearStart y) (yearStart (y + 1)) r.date))), rfl,
      List.perm_insertionSort hrDateLe _, List.sorted_insertionSort hrDateLe _, ?_⟩
    intro hempty
    rw [sortByDate, hempty]
    rfl
  · refine ⟨sortByDate (s.table.filter
      (fun r => decide (inRange (monthStart y mo) (nextMonthStart y mo) r.date))), rfl,
      List.perm_insertionSort hrDateLe _, List.sorted_insertionSort hrDateLe _, ?_⟩
    intro hempty
    rw [sortByDate, hempty]
    rfl

/-- C7 witness: with records stored at 2024-01-01, 2024-01-31 and
2024-02-01, readByYearMonth(2024, 1) on the test double returns a sorted
permutation of exactly the two January records. -/
theorem read_by_period_range_sorted_witness :
    ∃ L, (MockDB.mk
        [(GoTime.mk 2024 1 1 0, HealthRecord.mk 1 (GoTime.mk 2024 1 1 0) 10 0 0),
         (GoTime.mk 2024 1 31 0, HealthRecord.mk 2 (GoTime.mk 2024 1 31 0) 20 0 0),
         (GoTime.mk 2024 2 1 0, HealthRecord.mk 3 (GoTime.mk 2024 2 1 0) 30 0 0)]
        false false false).readHealthRecordsByYearMonth 2024 1 = .ok L ∧
      L.Perm ([(GoTime.mk 2024 1 1 0, HealthRecord.mk 1 (GoTime.mk 2024 1 1 0) 10 0 0),
         (GoTime.mk 2024 1 31 0, HealthRecord.mk 2 (GoTime.mk 2024 1 31 0) 20 0 0),
         (GoTime.mk 2024 2 1 0, HealthRecord.mk 3 (GoTime.mk 2024 2 1 0) 30 0 0)].map
          (fun pr => pr.2) |>.filter
          (fun r => decide (inRange (monthStart 2024 1) (nextMonthStart 2024 1) r.date))) ∧
      L.Sorted hrDateLe :=
  have h := read_by_period_range_sorted
    (MockDB.mk
      [(GoTime.mk 2024 1 1 0, HealthRecord.mk 1 (GoTime.mk 2024 1 1 0) 10 0 0),
       (GoTime.mk 2024 1 31 0, HealthRecord.mk 2 (GoTime.mk 2024 1 31 0) 20 0 0),
       (GoTime.mk 2024 2 1 0, HealthRecord.mk 3 (GoTime.mk 2024 2 1 0) 30 0 0)]
      false false false) 2024 1 (SQLiteState.mk [] 1)
    (by decide) rfl (by decide) (by decide)
  match h.2.1 with
  | ⟨L, h1, h2, h3, _⟩ => ⟨L, h1, h2, h3⟩

/-! ## Claim about update/delete on the client-server backend (C2) -/

/-- C2 (counterexample): on the current client-server backend, update of an
existing record at 2024-01-02 does not execute exactly one SQL statement
with no surrounding transaction: it issues four engine commands — begin,
the SELECT EXISTS probe, the UPDATE, and commit — so the statement trace
has length 4, contains a transaction begin, and the not-found decision is
taken from the probe, never from an affected-row count. -/
theorem pg_update_issues_transactional_statements :
    (pgUpdateHealthRecord (PGState.mk [HealthRecord.mk 1 (GoTime.mk 2024 1 2 0) 50 0 0] 2)
        (HealthRecord.mk 0 (GoTime.mk 2024 1 2 0) 60 0 0) 3).2.2
      = [DBEvent.beginTx, DBEvent.queryProbe (GoTime.mk 2024 1 2 0),
         DBEvent.execUpdate 60 3 (GoTime.mk 2024 1 2 0), DBEvent.commitTx] ∧
    (pgUpdateHealthRecord (PGState.mk [HealthRecord.mk 1 (GoTime.mk 2024 1 2 0) 50 0 0] 2)
        (HealthRecord.mk 0 (GoTime.mk 2024 1 2 0) 60 0 0) 3).2.2.length ≠ 1 ∧
    DBEvent.beginTx ∈ (pgUpdateHealthRecord
        (PGState.mk [HealthRecord.mk 1 (GoTime.mk 2024 1 2 0) 50 0 0] 2)
        (HealthRecord.mk 0 (GoTime.mk 2024 1 2 0) 60 0 0) 3).2.2 := by
  refine ⟨by decide, by decide, by decide⟩

/-- C2 (amended): on the client-server backend, update and delete each wrap
a SELECT EXISTS existence probe and the mutation in one transaction (begin,
probe, mutate, commit); they return the not-found condition exactly when
the probe reports no record at the target date (in which case the state is
unchanged and, because the deferred rollback is guarded by a nil local
error, the transaction trace simply stops after the probe); the affected-row
count is never consulted. -/
theorem pg_update_delete_check_then_act (p : PGState) (hr : HealthRecord)
    (now : Nat) (d : GoTime) :
    ((pgUpdateHealthRecord p hr now).2.1 = some (.notFoundForDate hr.date) ↔
      ∀ r ∈ p.table, r.date ≠ hr.date) ∧
    ((∀ r ∈ p.table, r.date ≠ hr.date) →
      pgUpdateHealthRecord p hr now
        = (p, some (.notFoundForDate hr.date),
           [DBEvent.beginTx, DBEvent.queryProbe hr.date])) ∧
    ((∃ r ∈ p.table, r.date = hr.date) →
      (pgUpdateHealthRecord p hr now).2.1 = none ∧
      (pgUpdateHealthRecord p hr now).2.2
        = [DBEvent.beginTx, DBEvent.queryProbe hr.date,
           DBEvent.execUpdate hr.stepCount now hr.date, DBEvent.commitTx]) ∧
    ((pgDeleteHealthRecord p d).2.1 = some (.notFoundForDate d) ↔
      ∀ r ∈ p.table, r.date ≠ d) ∧
    ((∀ r ∈ p.table, r.date ≠ d) →
      pgDeleteHealthRecord p d
        = (p, some (.notFoundForDate d), [DBEvent.beginTx, DBEvent.queryProbe d])) ∧
    ((∃ r ∈ p.table, r.date = d) →
      (pgDeleteHealthRecord p d).2.1 = none ∧
      (pgDeleteHealthRecord p d).2.2
        = [DBEvent.beginTx, DBEvent.queryProbe d,
           DBEvent.execDelete d, DBEvent.commitTx]) := by
  have hiffU : p.table.any (fun r => decide (r.date = hr.date)) = true ↔
      ∃ r ∈ p.table, r.date = hr.date := by
    rw [List.any_eq_true]
    simp
  have hiffD : p.table.any (fun r => decide (r.date = d)) = true ↔
      ∃ r ∈ p.table, r.date = d := by
    rw [List.any_eq_true]
    simp
  refine ⟨?_, ?_, ?_, ?_, ?_, ?_⟩
  · cases hany : p.table.any (fun r => decide (r.date = hr.date)) with
    | true =>
      obtain ⟨r, hm, he⟩ := hiffU.mp hany
      simp only [pgUpdateHealthRecord, hany, if_true]
      constructor
      · intro h
        simp at h
      · intro h
        exact absurd he (h r hm)
    | false =>
      simp only [pgUpdateHealthRecord, hany, Bool.false_eq_true, if_false]
      constructor
      · intro _ r hm he
        exact (by simp [hany] at hiffU; exact hiffU r hm he : False)
      · intro _
        trivial
  · intro h
    have hany : p.table.any (fun r => decide (r.date = hr.date)) = false := by
      rw [List.any_eq_false]
      intro x hx
      simpa using h x hx
    simp [pgUpdateHealthRecord, hany]
  · intro h
    have hany := hiffU.mpr h
    simp [pgUpdateHealthRecord, hany]
  · cases hany : p.table.any (fun r => decide (r.date = d)) with
    | true =>
      obtain ⟨r, hm, he⟩ := hiffD.mp hany
      simp only [pgDeleteHealthRecord, hany, if_true]
      constructor
      · intro h
        simp at h
      · intro h
        exact absurd he (h r hm)
    | false =>
      simp only [pgDeleteHealthRecord, hany, Bool.false_eq_true, if_false]
      constructor
      · intro _ r hm he
        exact (by simp [hany] at hiffD; exact hiffD r hm he : False)
      · intro _
        trivial
  · intro h
    have hany : p.table.any (fun r => decide (r.date = d)) = false := by
      rw [List.any_eq_false]
      intro x hx
      simpa using h x hx
    simp [pgDeleteHealthRecord, hany]
  · intro h
    have hany := hiffD.mpr h
    simp [pgDeleteHealthRecord, hany]

/-- C2 witness: on a table holding only 2024-01-02, updating 2024-01-03
returns the not-found condition with the state unchanged after begin and
probe, and deleting 2024-01-02 runs probe and DELETE inside one
transaction. -/
theorem pg_update_delete_check_then_act_witness :
    pgUpdateHealthRecord (PGState.mk [HealthRecord.mk 1 (GoTime.mk 2024 1 2 0) 50 0 0] 2)
        (HealthRecord.mk 0 (GoTime.mk 2024 1 3 0) 60 0 0) 3
      = (PGState.mk [HealthRecord.mk 1 (GoTime.mk 2024 1 2 0) 50 0 0] 2,
         some (.notFoundForDate (GoTime.mk 2024 1 3 0)),
         [DBEvent.beginTx, DBEvent.queryProbe (GoTime.mk 2024 1 3 0)]) ∧
    ((pgDeleteHealthRecord (PGState.mk [HealthRecord.mk 1 (GoTime.mk 2024 1 2 0) 50 0 0] 2)
        (GoTime.mk 2024 1 2 0)).2.1 = none ∧
      (pgDeleteHealthRecord (PGState.mk [HealthRecord.mk 1 (GoTime.mk 2024 1 2 0) 50 0 0] 2)
        (GoTime.mk 2024 1 2 0)).2.2
        = [DBEvent.beginTx, DBEvent.queryProbe (GoTime.mk 2024 1 2 0),
           DBEvent.execDelete (GoTime.mk 2024 1 2 0), DBEvent.commitTx]) :=
  have h := pg_update_delete_check_then_act
    (PGState.mk [HealthRecord.mk 1 (GoTime.mk 2024 1 2 0) 50 0 0] 2)
    (HealthRecord.mk 0 (GoTime.mk 2024 1 3 0) 60 0 0) 3 (GoTime.mk 2024 1 2 0)
  ⟨h.2.1 (by decide),
    h.2.2.2.2.2 ⟨HealthRecord.mk 1 (GoTime.mk 2024 1 2 0) 50 0 0, by decide, rfl⟩⟩

/-! ## Claim about id uniqueness on the test double (C9) -/

/-- States of the test double reachable by any sequence of create, update
and delete operations (each step takes the state the operation returns,
whether or not the operation succeeded). -/
inductive MockReach : MockDB → Prop where
  | init : MockReach MockDB.new
  | create (m : MockDB) (hr : HealthRecord) (t1 t2 : Nat) :
      MockReach m → MockReach (m.createHealthRecord hr t1 t2).1
  | update (m : MockDB) (hr : HealthRecord) (t : Nat) :
      MockReach m → MockReach (m.updateHealthRecord hr t).1
  | del (m : MockDB) (d : GoTime) :
      MockReach m → MockReach (m.deleteHealthRecord d).1

/-- States of the test double reachable by create and update only (no
delete), where every created record arrives with an already-normalized
date, as the mock's storage key discipline assumes. -/
inductive MockReachND : MockDB → Prop where
  | init : MockReachND MockDB.new
  | create (m : MockDB) (hr : HealthRecord) (t1 t2 : Nat) :
      normalizeDate hr.date = hr.date →
      MockReachND m → MockReachND (m.createHealthRecord hr t1 t2).1
  | update (m : MockDB) (hr : HealthRecord) (t : Nat) :
      MockReachND m → MockReachND (m.updateHealthRecord hr t).1

/-- C9 (counterexample): ids are assigned as len(records) + 1, so the state
reached by create 2024-01-01, create 2024-01-02, delete 2024-01-01, create
2024-01-03 holds two live records that both carry id 2 — the ids of the
live records are not pairwise distinct on a reachable state. -/
theorem mock_ids_collide_after_delete :
    ∃ m : MockDB, MockReach m ∧ ¬ (m.records.map (fun pr => pr.2.id)).Nodup := by
  refine ⟨((((MockDB.new.createHealthRecord
      (HealthRecord.mk 0 (GoTime.mk 2024 1 1 0) 1 0 0) 0 0).1.createHealthRecord
      (HealthRecord.mk 0 (GoTime.mk 2024 1 2 0) 1 0 0) 0 0).1.deleteHealthRecord
      (GoTime.mk 2024 1 1 0)).1.createHealthRecord
      (HealthRecord.mk 0 (GoTime.mk 2024 1 3 0) 1 0 0) 0 0).1, ?_, ?_⟩
  · exact .create _ _ _ _ (.del _ _ (.create _ _ _ _ (.create _ _ _ _ .init)))
  · decide

theorem mapInsert_map_id_of_lookup_some (m : RecordMap) (k : GoTime)
    (v w : HealthRecord) (hl : mapLookup m k = some w) (hv : v.id = w.id) :
    (mapInsert m k v).map (fun pr => pr.2.id) = m.map (fun pr => pr.2.id) := by
  induction m with
  | nil => simp [mapLookup] at hl
  | cons p rest ih =>
    by_cases hp : p.1 = k
    · have hw : w = p.2 := by
        simp [mapLookup, List.find?, hp] at hl
        exact hl.symm
      simp [mapInsert, hp, hv, hw]
    · have hl2 : mapLookup rest k = some w := by
        simpa [mapLookup, List.find?, hp] using hl
      simp [mapInsert, hp, ih hl2]

/-- The id layout invariant of delete-free mock states: reading the stored
records in insertion order, their ids are 1, 2, ..., n. -/
theorem mockReachND_ids (m : MockDB) (h : MockReachND m) :
    m.records.map (fun pr => pr.2.id)
      = List.map (fun i : Nat => (i : Int) + 1) (List.range m.records.length) := by
  induction h with
  | init => rfl
  | create m hr t1 t2 hnorm hm ih =>
    cases hcc : m.checkContext with
    | some e =>
      simpa [MockDB.createHealthRecord, hcc] using ih
    | none =>
      by_cases hz : (normalizeDate hr.date).isZero
      · simpa [MockDB.createHealthRecord, hcc, hz] using ih
      · cases hlk : mapLookup m.records hr.date with
        | some r =>
          simpa [MockDB.createHealthRecord, hcc, hz, hlk] using ih
        | none =>
          have hlk2 : mapLookup m.records (normalizeDate hr.date) = none := by
            rw [hnorm]; exact hlk
          simp only [MockDB.createHealthRecord, hcc, hz, hlk, Option.isSome_none,
            Bool.false_eq_true, if_false, if_neg, not_false_iff]
          rw [mapInsert_of_lookup_none _ _ _ hlk2]
          simp only [List.map_append, List.length_append, List.length_map, ih, mapSize]
          simp [List.range_succ]
  | update m hr t hm ih =>
    cases hcc : m.checkContext with
    | some e =>
      simpa [MockDB.updateHealthRecord, hcc] using ih
    | none =>
      cases hlk : mapLookup m.records (normalizeDate hr.date) with
      | none =>
        simpa [MockDB.updateHealthRecord, hcc, hlk] using ih
      | some record =>
        simp only [MockDB.updateHealthRecord, hcc, hlk]
        have hmap := mapInsert_map_id_of_lookup_some m.records (normalizeDate hr.date)
          { record with stepCount := hr.stepCount, updatedAt := t } record hlk rfl
        have hlen : (mapInsert m.records (normalizeDate hr.date)
            { record with stepCount := hr.stepCount, updatedAt := t }).length
            = m.records.length := by
          have := congrArg List.length hmap
          simpa using this
        rw [hmap, hlen]
        exact ih

/-- C9 (amended): on the test double, the ids of the live records are
pairwise distinct in every state reachable by create and update operations
with normalized create dates (after a delete, a subsequent create can
duplicate a live id, and an unnormalized create date can overwrite a
record, because ids are assigned as len + 1); and a stored record's id is
never changed by an update or a delete. -/
theorem mock_ids_distinct_and_stable (m : MockDB) :
    (MockReachND m → (m.records.map (fun pr => pr.2.id)).Nodup) ∧
    (∀ hr t k v w, mapLookup m.records k = some w →
      mapLookup (m.updateHealthRecord hr t).1.records k = some v → v.id = w.id) ∧
    (∀ d k v w, mapLookup m.records k = some w →
      mapLookup (m.deleteHealthRecord d).1.records k = some v → v.id = w.id) := by
  refine ⟨?_, ?_, ?_⟩
  · intro h
    rw [mockReachND_ids m h]
    refine List.Nodup.map ?_ (List.nodup_range _)
    intro a b hab
    simpa using hab
  · intro hr t k v w hw hv
    cases hcc : m.checkContext with
    | some e =>
      rw [show (m.updateHealthRecord hr t).1 = m by
        simp [MockDB.updateHealthRecord, hcc]] at hv
      rw [hw] at hv
      exact (Option.some_inj.mp hv) ▸ rfl
    | none =>
      cases hlk : mapLookup m.records (normalizeDate hr.date) with
      | none =>
        rw [show (m.updateHealthRecord hr t).1 = m by
          simp [MockDB.updateHealthRecord, hcc, hlk]] at hv
        rw [hw] at hv
        exact (Option.some_inj.mp hv) ▸ rfl
      | some record =>
        have hst : (m.updateHealthRecord hr t).1.records
            = mapInsert m.records (normalizeDate hr.date)
              { record with stepCount := hr.stepCount, updatedAt := t } := by
          simp [MockDB.updateHealthRecord, hcc, hlk]
        rw [hst] at hv
        by_cases hk : k = normalizeDate hr.date
        · subst hk
          rw [mapLookup_mapInsert_self] at hv
          rw [hw] at hlk
          have hrw : w = record := Option.some_inj.mp hlk
          have hrv : v = { record with stepCount := hr.stepCount, updatedAt := t } :=
            (Option.some_inj.mp hv).symm
          rw [hrv, hrw]
        · rw [mapLookup_mapInsert_ne _ _ _ _ hk] at hv
          rw [hw] at hv
          exact (Option.some_inj.mp hv) ▸ rfl
  · intro d k v w hw hv
    cases hcc : m.checkContext with
    | some e =>
      rw [show (m.deleteHealthRecord d).1 = m by
        simp [MockDB.deleteHealthRecord, hcc]] at hv
      rw [hw] at hv
      exact (Option.some_inj.mp hv) ▸ rfl
    | none =>
      cases hlk : mapLookup m.records (normalizeDate d) with
      | none =>
        rw [show (m.deleteHealthRecord d).1 = m by
          simp [MockDB.deleteHealthRecord, hcc, hlk]] at hv
        rw [hw] at hv
        exact (Option.some_inj.mp hv) ▸ rfl
      | some record =>
        have hst : (m.deleteHealthRecord d).1.records
            = mapErase m.records (normalizeDate d) := by
          simp [MockDB.deleteHealthRecord, hcc, hlk]
        rw [hst] at hv
        by_cases hk : k = normalizeDate d
        · subst hk
          rw [mapLookup_mapErase_self] at hv
          cases hv
        · rw [mapLookup_mapErase_ne _ _ _ hk] at hv
          rw [hw] at hv
          exact (Option.some_inj.mp hv) ▸ rfl

/-- C9 witness: after two creates at distinct normalized dates the live ids
1 and 2 are pairwise distinct, and an update of 2024-01-01 leaves the
stored id of that record unchanged. -/
theorem mock_ids_distinct_and_stable_witness :
    (((MockDB.new.createHealthRecord
        (HealthRecord.mk 0 (GoTime.mk 2024 1 1 0) 1 0 0) 0 0).1.createHealthRecord
        (HealthRecord.mk 0 (GoTime.mk 2024 1 2 0) 1 0 0) 0 0).1.records.map
        (fun pr => pr.2.id)).Nodup ∧
    (HealthRecord.mk 1 (GoTime.mk 2024 1 1 0) 9 0 3).id
      = (HealthRecord.mk 1 (GoTime.mk 2024 1 1 0) 1 0 0).id :=
  have h := mock_ids_distinct_and_stable
    ((MockDB.new.createHealthRecord
      (HealthRecord.mk 0 (GoTime.mk 2024 1 1 0) 1 0 0) 0 0).1.createHealthRecord
      (HealthRecord.mk 0 (GoTime.mk 2024 1 2 0) 1 0 0) 0 0).1
  have h2 := mock_ids_distinct_and_stable
    (MockDB.mk [(GoTime.mk 2024 1 1 0, HealthRecord.mk 1 (GoTime.mk 2024 1 1 0) 1 0 0)]
      false false false)
  ⟨h.1 (MockReachND.create _ _ _ _ (by decide)
      (MockReachND.create _ _ _ _ (by decide) MockReachND.init)),
    h2.2.1 (HealthRecord.mk 0 (GoTime.mk 2024 1 1 5) 9 0 0) 3 (GoTime.mk 2024 1 1 0)
      (HealthRecord.mk 1 (GoTime.mk 2024 1 1 0) 9 0 3)
      (HealthRecord.mk 1 (GoTime.mk 2024 1 1 0) 1 0 0) rfl rfl⟩

/-! ## Claim about the fault toggles of the test double (C10) -/

/-- C10: whenever a fault toggle of the test double is enabled, every
operation of the storage contract fails before touching the store —
simulate-timeout yields context.DeadlineExceeded (checked before the other
toggles), simulate-cancel context.Canceled, simulate-connection-error the
backend-unavailable condition — and the record map is unchanged, as
observable through the side-channel read GetStoredRecordDirectly. -/
theorem mock_fault_toggles_block_operations (m : MockDB) (hr : HealthRecord)
    (d : GoTime) (y mo : Int) (t1 t2 t : Nat)
    (h : m.simulateTimeout = true ∨ m.simulateContextCancel = true ∨
      m.simulateDBError = true) :
    ∃ e, m.checkContext = some e ∧
      (m.simulateTimeout = true → e = .contextDeadlineExceeded) ∧
      (m.simulateTimeout = false → m.simulateContextCancel = true →
        e = .contextCanceled) ∧
      (m.simulateTimeout = false → m.simulateContextCancel = false →
        m.simulateDBError = true → e = .dbConnectionFailed) ∧
      m.createHealthRecord hr t1 t2 = (m, .error e) ∧
      m.readHealthRecord d = .error e ∧
      m.readHealthRecordsByYear y = .error e ∧
      m.readHealthRecordsByYearMonth y mo = .error e ∧
      m.updateHealthRecord hr t = (m, some e) ∧
      m.deleteHealthRecord d = (m, some e) ∧
      (∀ q, (m.createHealthRecord hr t1 t2).1.getStoredRecordDirectly q
          = m.getStoredRecordDirectly q) ∧
      (∀ q, (m.updateHealthRecord hr t).1.getStoredRecordDirectly q
          = m.getStoredRecordDirectly q) ∧
      (∀ q, (m.deleteHealthRecord d).1.getStoredRecordDirectly q
          = m.getStoredRecordDirectly q) := by
  have key : ∀ e, m.checkContext = some e →
      m.createHealthRecord hr t1 t2 = (m, .error e) ∧
      m.readHealthRecord d = .error e ∧
      m.readHealthRecordsByYear y = .error e ∧
      m.readHealthRecordsByYearMonth y mo = .error e ∧
      m.updateHealthRecord hr t = (m, some e) ∧
      m.deleteHealthRecord d = (m, some e) := by
    intro e hcc
    refine ⟨?_, ?_, ?_, ?_, ?_, ?_⟩ <;>
      simp [MockDB.createHealthRecord, MockDB.readHealthRecord,
        MockDB.readHealthRecordsByYear, MockDB.readHealthRecordsByYearMonth,
        MockDB.updateHealthRecord, MockDB.deleteHealthRecord, hcc]
  by_cases ht : m.simulateTimeout = true
  · have hcc : m.checkContext = some .contextDeadlineExceeded := by
      simp [MockDB.checkContext, ht]
    obtain ⟨k1, k2, k3, k4, k5, k6⟩ := key _ hcc
    exact ⟨_, hcc, fun _ => rfl, fun hf _ => absurd ht (by simp [hf]),
      fun hf _ _ => absurd ht (by simp [hf]), k1, k2, k3, k4, k5, k6,
      fun q => by rw [k1], fun q => by rw [k5], fun q => by rw [k6]⟩
  · have ht' : m.simulateTimeout = false := by
      simpa using ht
    by_cases hc : m.simulateContextCancel = true
    · have hcc : m.checkContext = some .contextCanceled := by
        simp [MockDB.checkContext, ht', hc]
      obtain ⟨k1, k2, k3, k4, k5, k6⟩ := key _ hcc
      exact ⟨_, hcc, fun hf => absurd hf (by simp [ht']), fun _ _ => rfl,
        fun _ hcf _ => absurd hc (by simp [hcf]), k1, k2, k3, k4, k5, k6,
        fun q => by rw [k1], fun q => by rw [k5], fun q => by rw [k6]⟩
    · have hc' : m.simulateContextCancel = false := by
        simpa using hc
      have hd : m.simulateDBError = true := by
        rcases h with h | h | h
        · exact absurd h (by simp [ht'])
        · exact absurd h (by simp [hc'])
        · exact h
      have hcc : m.checkContext = some .dbConnectionFailed := by
        simp [MockDB.checkContext, ht', hc', hd]
      obtain ⟨k1, k2, k3, k4, k5, k6⟩ := key _ hcc
      exact ⟨_, hcc, fun hf => absurd hf (by simp [ht']),
        fun _ hcf => absurd hcf (by simp [hc']), fun _ _ _ => rfl,
        k1, k2, k3, k4, k5, k6,
        fun q => by rw [k1], fun q => by rw [k5], fun q => by rw [k6]⟩

/-- C10 witness: with simulate-timeout and simulate-connection-error both
set on a one-record store, every contract operation returns
context.DeadlineExceeded (the timeout toggle wins) and the stored record at
2024-01-01 is still visible unchanged through the side channel. -/
theorem mock_fault_toggles_block_operations_witness :
    ∃ e, (MockDB.mk
        [(GoTime.mk 2024 1 1 0, HealthRecord.mk 1 (GoTime.mk 2024 1 1 0) 10 0 0)]
        true false true).checkContext = some e ∧
      (true = true → e = .contextDeadlineExceeded) ∧
      (true = false → false = true → e = .contextCanceled) ∧
      (true = false → false = false → true = true → e = .dbConnectionFailed) ∧
      (MockDB.mk
        [(GoTime.mk 2024 1 1 0, HealthRecord.mk 1 (GoTime.mk 2024 1 1 0) 10 0 0)]
        true false true).createHealthRecord
        (HealthRecord.mk 0 (GoTime.mk 2024 1 2 0) 5 0 0) 0 0
        = (MockDB.mk
            [(GoTime.mk 2024 1 1 0, HealthRecord.mk 1 (GoTime.mk 2024 1 1 0) 10 0 0)]
            true false true, .error e) ∧
      (MockDB.mk
        [(GoTime.mk 2024 1 1 0, HealthRecord.mk 1 (GoTime.mk 2024 1 1 0) 10 0 0)]
        true false true).readHealthRecord (GoTime.mk 2024 1 1 0) = .error e ∧
      (MockDB.mk
        [(GoTime.mk 2024 1 1 0, HealthRecord.mk 1 (GoTime.mk 2024 1 1 0) 10 0 0)]
        true false true).readHealthRecordsByYear 2024 = .error e ∧
      (MockDB.mk
        [(GoTime.mk 2024 1 1 0, HealthRecord.mk 1 (GoTime.mk 2024 1 1 0) 10 0 0)]
        true false true).readHealthRecordsByYearMonth 2024 1 = .error e ∧
      (MockDB.mk
        [(GoTime.mk 2024 1 1 0, HealthRecord.mk 1 (GoTime.mk 2024 1 1 0) 10 0 0)]
        true false true).updateHealthRecord
        (HealthRecord.mk 0 (GoTime.mk 2024 1 2 0) 5 0 0) 0
        = (MockDB.mk
            [(GoTime.mk 2024 1 1 0, HealthRecord.mk 1 (GoTime.mk 2024 1 1 0) 10 0 0)]
            true false true, some e) ∧
      (MockDB.mk
        [(GoTime.mk 2024 1 1 0, HealthRecord.mk 1 (GoTime.mk 2024 1 1 0) 10 0 0)]
        true false true).deleteHealthRecord (GoTime.mk 2024 1 1 0)
        = (MockDB.mk
            [(GoTime.mk 2024 1 1 0, HealthRecord.mk 1 (GoTime.mk 2024 1 1 0) 10 0 0)]
            true false true, some e) ∧
      (∀ q, ((MockDB.mk
          [(GoTime.mk 2024 1 1 0, HealthRecord.mk 1 (GoTime.mk 2024 1 1 0) 10 0 0)]
          true false true).createHealthRecord
          (HealthRecord.mk 0 (GoTime.mk 2024 1 2 0) 5 0 0) 0 0).1.getStoredRecordDirectly q
          = (MockDB.mk
            [(GoTime.mk 2024 1 1 0, HealthRecord.mk 1 (GoTime.mk 2024 1 1 0) 10 0 0)]
            true false true).getStoredRecordDirectly q) ∧
      (∀ q, ((MockDB.mk
          [(GoTime.mk 2024 1 1 0, HealthRecord.mk 1 (GoTime.mk 2024 1 1 0) 10 0 0)]
          true false true).updateHealthRecord
          (HealthRecord.mk 0 (GoTime.mk 2024 1 2 0) 5 0 0) 0).1.getStoredRecordDirectly q
          = (MockDB.mk
            [(GoTime.mk 2024 1 1 0, HealthRecord.mk 1 (GoTime.mk 2024 1 1 0) 10 0 0)]
            true false true).getStoredRecordDirectly q) ∧
      (∀ q, ((MockDB.mk
          [(GoTime.mk 2024 1 1 0, HealthRecord.mk 1 (GoTime.mk 2024 1 1 0) 10 0 0)]
          true false true).deleteHealthRecord (GoTime.mk 2024 1 1 0)).1.getStoredRecordDirectly q
          = (MockDB.mk
            [(GoTime.mk 2024 1 1 0, HealthRecord.mk 1 (GoTime.mk 2024 1 1 0) 10 0 0)]
            true false true).getStoredRecordDirectly q) :=
  mock_fault_toggles_block_operations
    (MockDB.mk [(GoTime.mk 2024 1 1 0, HealthRecord.mk 1 (GoTime.mk 2024 1 1 0) 10 0 0)]
      true false true)
    (HealthRecord.mk 0 (GoTime.mk 2024 1 2 0) 5 0 0) (GoTime.mk 2024 1 1 0) 2024 1 0 0 0
    (Or.inl rfl)

end HealthTracker
